import Mathlib

/-!
# Verification of the mcp-searchapi server against its design specification

The definitions below are a shallow embedding of the TypeScript sources
`src/index.ts` and `src/services/searchapi.ts`.  JavaScript objects become
structures, `undefined`-able values become `Option`, JavaScript truthiness
tests (`x || d`, `if (x)`, `!x`) become explicit matches on `Option` and
emptiness, JavaScript numbers become `Int` (the claims never depend on
fractional values), and the process-wide `transports` object becomes an
association list.  External collaborators (the axios HTTP call, the MCP SDK
transport) are passed in as explicit outcome parameters at their boundary.
-/

namespace McpSearchApi

/-- JavaScript `x || d` for an optional string: `undefined` and the empty
string are both falsy and select the default `d`.  Embeds expressions such
as `location || 'United States'` in the tool handler. -/
def jsOrStr (x : Option String) (d : String) : String :=
  match x with
  | none => d
  | some s => if s = "" then d else s

/-- JavaScript `x || d` for an optional number (embedded as `Int`):
`undefined` and `0` are falsy and select the default.  Embeds
`maxResults || 10`. -/
def jsOrInt (x : Option Int) (d : Int) : Int :=
  match x with
  | none => d
  | some n => if n = 0 then d else n

/-! ## Session registry (`run()` in src/index.ts)

The gateway keeps `const transports: { [sessionId: string]:
StreamableHTTPServerTransport } = {}`.  A transport (the per-session duplex
channel) is abstracted by a numeric identifier. -/

/-- A duplex channel (`StreamableHTTPServerTransport` instance),
abstracted by an identifier. -/
abbrev Channel := Nat

/-- The process-wide `transports` object, embedded as an association list
from session id to channel. -/
abbrev Registry := List (String × Channel)

/-- The own-property part of the read `transports[sessionId]`: the
registered sessions.  (The full JavaScript property read also consults the
prototype chain; see `propRead`.) -/
def regLookup (reg : Registry) (sid : String) : Option Channel :=
  (reg.find? (fun p => p.1 == sid)).map (fun p => p.2)

/-- Property write `transports[sessionId] = transport`: overwrite an
existing binding, otherwise append a new one. -/
def regInsert (reg : Registry) (sid : String) (t : Channel) : Registry :=
  if (reg.find? (fun p => p.1 == sid)).isSome then
    reg.map (fun p => if p.1 == sid then (sid, t) else p)
  else
    reg ++ [(sid, t)]

/-- Property deletion `delete transports[sessionId]`: removes the binding
if present; it is a no-op on an absent key (JavaScript `delete` never
throws). -/
def regDelete (reg : Registry) (sid : String) : Registry :=
  reg.filter (fun p => p.1 != sid)

/-- JavaScript truthiness of the `mcp-session-id` header value, typed
`string | undefined` in the source: `undefined` and `""` are falsy. -/
def hdrTruthy : Option String → Bool
  | none => false
  | some s => s != ""

/-- The property keys a plain object literal (`transports = {}`,
src/index.ts:144) inherits from `Object.prototype`; reading any of them on
the empty object yields a truthy function or object value (for
`__proto__`, the prototype object itself). -/
def protoKeys : List String :=
  ["constructor", "hasOwnProperty", "isPrototypeOf", "propertyIsEnumerable",
   "toLocaleString", "toString", "valueOf", "__defineGetter__",
   "__defineSetter__", "__lookupGetter__", "__lookupSetter__", "__proto__"]

/-- The possible values of the JavaScript property read
`transports[sessionId]`. -/
inductive PropRead where
  | transport (t : Channel)
  | inherited
  | undef
  deriving DecidableEq, Repr

/-- The full property read `transports[sessionId]` on the plain object
literal: an own (registered) key yields its transport; otherwise a key of
`Object.prototype` yields the inherited member — truthy, but not a
transport; otherwise the read is `undefined`.  Registered ids are
server-generated UUIDs (`randomUUID`, src/index.ts:166), so the
registration assignment never targets a prototype key and own-property
insertion models it faithfully. -/
def propRead (reg : Registry) (sid : String) : PropRead :=
  match regLookup reg sid with
  | some t => PropRead.transport t
  | none => if sid ∈ protoKeys then PropRead.inherited else PropRead.undef

/-! ## POST /mcp (src/index.ts:153-215) -/

/-- The ways `app.post('/mcp')` can treat a request.  `resumeInherited` is
the resume branch entered with a truthy inherited `Object.prototype`
member instead of a registered transport. -/
inductive PostAction where
  | resume (t : Channel)
  | resumeInherited
  | create
  | reject
  deriving DecidableEq, Repr

/-- The branch selection of `app.post('/mcp')` (src/index.ts:160-196):
`if (sessionId && transports[sessionId])` reuses whatever the property read
found — a registered transport, or a truthy inherited `Object.prototype`
member for headers such as `constructor`; `else if (!sessionId &&
isInitializeRequest(req.body))` builds a new transport; `else` rejects.
Both conditions read the header and the property through JavaScript
truthiness, so an empty-string header behaves like an absent one and an
inherited member passes the first condition. -/
def classifyPost (hdr : Option String) (reg : Registry) (isInit : Bool) :
    PostAction :=
  if hdrTruthy hdr then
    match propRead reg (hdr.getD "") with
    | PropRead.transport t => PostAction.resume t
    | PropRead.inherited => PostAction.resumeInherited
    | PropRead.undef => PostAction.reject
  else
    if isInit then PostAction.create else PostAction.reject

/-- The classification exactly as claim C1 words it, where "the session-id
header is present" means the header exists on the request with any value,
the empty string included.  Written from the claim's sentence, to be
compared with `classifyPost`, which is written from the source. -/
def claimClassifyPost (hdr : Option String) (reg : Registry) (isInit : Bool) :
    PostAction :=
  match hdr with
  | some s =>
    match regLookup reg s with
    | some t => PostAction.resume t
    | none => PostAction.reject
  | none => if isInit then PostAction.create else PostAction.reject

/-- The JSON-RPC error body written by the POST handler:
`{ jsonrpc: '2.0', error: { code, message }, id: null }`.  The `id` field
always holds the JSON literal `null`, recorded by `idNull`. -/
structure JsonRpcErrorBody where
  jsonrpc : String
  code : Int
  message : String
  idNull : Bool
  deriving DecidableEq, Repr

/-- Outcome of the delegated `server.connect` / `transport.handleRequest`
work inside the `try` block: it completes, or it throws before any response
bytes were written (`res.headersSent` is false), or it throws after the
response has begun streaming. -/
inductive HttpOutcome where
  | ok
  | thrownBeforeHeaders
  | thrownAfterHeaders
  deriving DecidableEq, Repr

/-- What the POST handler ends up writing to the HTTP response.
`delegatedInherited` stands for a completed forward to an inherited
non-transport value — unreachable in the program, since such a value has no
`handleRequest`; it only closes the environment on that branch. -/
inductive PostResponse where
  | delegated (t : Channel)
  | delegatedInherited
  | badRequest (status : Nat) (body : JsonRpcErrorBody)
  | internalError (status : Nat) (body : JsonRpcErrorBody)
  | abortedMidResponse
  deriving DecidableEq, Repr

/-- Result of one `app.post('/mcp')` invocation. -/
structure PostResult where
  response : PostResponse
  registry : Registry
  logged : Bool
  deriving DecidableEq, Repr

/-- The whole `app.post('/mcp')` handler (src/index.ts:153-215).  Besides
the request data (`hdr`, `isInit`) and the current registry, it is
parameterised by its environment: the fresh id `newId` that
`sessionIdGenerator` would produce, the new channel `newChan`, whether the
channel confirmed that id through `onsessioninitialized` (`confirmed`,
meaningful on the create path only; a completed init request always
confirms), and how the delegated handling ends (`http`).  The `catch` block
logs, and writes a 500 response with code `-32603` only when
`res.headersSent` is still false.  On the `resumeInherited` branch the
forward is a method call on an inherited `Object.prototype` member, which
has no `handleRequest`, so in the program the try body can only end in
`thrownBeforeHeaders` (a TypeError before any response bytes); the other
rows of that branch replay the catch's uniform behaviour and merely close
the environment. -/
def postMcp (hdr : Option String) (reg : Registry) (isInit : Bool)
    (newId : String) (newChan : Channel) (confirmed : Bool)
    (http : HttpOutcome) : PostResult :=
  match classifyPost hdr reg isInit with
  | PostAction.reject =>
    { response := PostResponse.badRequest 400
        { jsonrpc := "2.0", code := -32000,
          message := "Bad Request: No valid session ID provided",
          idNull := true },
      registry := reg, logged := false }
  | PostAction.resume t =>
    match http with
    | HttpOutcome.ok =>
      { response := PostResponse.delegated t, registry := reg, logged := false }
    | HttpOutcome.thrownBeforeHeaders =>
      { response := PostResponse.internalError 500
          { jsonrpc := "2.0", code := -32603,
            message := "Internal server error", idNull := true },
        registry := reg, logged := true }
    | HttpOutcome.thrownAfterHeaders =>
      { response := PostResponse.abortedMidResponse, registry := reg,
        logged := true }
  | PostAction.resumeInherited =>
    match http with
    | HttpOutcome.ok =>
      { response := PostResponse.delegatedInherited, registry := reg,
        logged := false }
    | HttpOutcome.thrownBeforeHeaders =>
      { response := PostResponse.internalError 500
          { jsonrpc := "2.0", code := -32603,
            message := "Internal server error", idNull := true },
        registry := reg, logged := true }
    | HttpOutcome.thrownAfterHeaders =>
      { response := PostResponse.abortedMidResponse, registry := reg,
        logged := true }
  | PostAction.create =>
    let reg' := if confirmed then regInsert reg newId newChan else reg
    match http with
    | HttpOutcome.ok =>
      { response := PostResponse.delegated newChan, registry := reg',
        logged := false }
    | HttpOutcome.thrownBeforeHeaders =>
      { response := PostResponse.internalError 500
          { jsonrpc := "2.0", code := -32603,
            message := "Internal server error", idNull := true },
        registry := reg', logged := true }
    | HttpOutcome.thrownAfterHeaders =>
      { response := PostResponse.abortedMidResponse, registry := reg',
        logged := true }

/-! ## GET /mcp and DELETE /mcp (src/index.ts:218-236) -/

/-- Outcome of `handleSessionRequest`: the 400 rejection, a delegation to a
registered transport, or a throw with no response written — the branch
taken when the truthiness guard is passed by an inherited
`Object.prototype` member, whose missing `handleRequest` throws inside the
async handler, which has no catch. -/
inductive SessionResponse where
  | badRequest (status : Nat) (body : String)
  | delegated (t : Channel)
  | thrownUnhandled
  deriving DecidableEq, Repr

/-- `handleSessionRequest` (src/index.ts:218-230), shared by GET /mcp and
DELETE /mcp: `if (!sessionId || !transports[sessionId])` draws
`res.status(400).send('Invalid or missing session ID')`; otherwise the
request is delegated to whatever the property read found — the registered
transport, or, for a header naming an `Object.prototype` key, the truthy
inherited member, on which the `handleRequest` call throws with no catch
and no response is written.  Returns the response together with the
registry, which this handler never mutates. -/
def handleSessionRequest (hdr : Option String) (reg : Registry) :
    SessionResponse × Registry :=
  if hdrTruthy hdr then
    match propRead reg (hdr.getD "") with
    | PropRead.transport t => (SessionResponse.delegated t, reg)
    | PropRead.inherited => (SessionResponse.thrownUnhandled, reg)
    | PropRead.undef =>
      (SessionResponse.badRequest 400 "Invalid or missing session ID", reg)
  else
    (SessionResponse.badRequest 400 "Invalid or missing session ID", reg)

/-- The `transport.onclose` callback (src/index.ts:174-178):
`if (transport.sessionId) { delete transports[transport.sessionId] }`.
`transport.sessionId` is `string | undefined`, read through truthiness. -/
def oncloseCleanup (reg : Registry) (sid : Option String) : Registry :=
  if hdrTruthy sid then regDelete reg (sid.getD "") else reg

/-! ## Create-path event trace (src/index.ts:163-199)

The create path constructs the transport with an `onsessioninitialized`
callback that registers the transport, connects the server, and lets the
transport handle the triggering body.  The transport itself is an external
collaborator (the MCP SDK); per the specification's channel contract it
confirms its generated id through the callback before the forwarded body is
processed. -/

/-- Observable events on the create path. -/
inductive Ev where
  | confirmId (sid : String)
  | register (sid : String)
  | forwardBody
  deriving DecidableEq, Repr

/-- The `onsessioninitialized` callback (src/index.ts:167-170): store the
transport under the confirmed id.  Returns the updated registry and the
registration event it performs. -/
def storeTransportCallback (reg : Registry) (sid : String) (chan : Channel) :
    Registry × List Ev :=
  (regInsert reg sid chan, [Ev.register sid])

/-- Modelled from the spec: the channel (`StreamableHTTPServerTransport`,
an external collaborator outside this repository) handles a
session-initialization request by first confirming its generated id through
the `onsessioninitialized` callback and only then processing the forwarded
body. -/
def channelHandleInit (reg : Registry) (sid : String) (chan : Channel) :
    Registry × List Ev :=
  let step := storeTransportCallback reg sid chan
  (step.1, Ev.confirmId sid :: (step.2 ++ [Ev.forwardBody]))

/-- The create path of `app.post('/mcp')`: construct the transport with the
registering callback bound, connect, and forward the triggering body via
`transport.handleRequest(req, res, req.body)`. -/
def createPath (reg : Registry) (sid : String) (chan : Channel) :
    Registry × List Ev :=
  channelHandleInit reg sid chan

/-- Registry contents after a prefix of the event trace has run: only
`register` events mutate the registry. -/
def regAfter (chan : Channel) : Registry → List Ev → Registry
  | reg, [] => reg
  | reg, Ev.register s :: tl => regAfter chan (regInsert reg s chan) tl
  | reg, Ev.confirmId _ :: tl => regAfter chan reg tl
  | reg, Ev.forwardBody :: tl => regAfter chan reg tl

/-! ## Search service data model (src/services/searchapi.ts:4-69) -/

/-- `InstallmentInfo` (src/services/searchapi.ts:4-11). -/
structure InstallmentInfo where
  down_payment : String
  extracted_down_payment : Int
  months : String
  extracted_months : Int
  cost_per_month : String
  extracted_cost_per_month : Int
  deriving DecidableEq, Repr

/-- `ShoppingResult` (src/services/searchapi.ts:13-29).  Fields marked `?`
in the interface are `Option`; JavaScript numbers are `Int`. -/
structure ShoppingResult where
  position : Int
  product_id : String
  title : String
  product_link : String
  seller : String
  offers : String
  extracted_offers : Int
  offers_link : String
  price : String
  extracted_price : Int
  installment : Option InstallmentInfo
  rating : Option Int
  reviews : Option Int
  delivery : Option String
  thumbnail : String
  deriving DecidableEq, Repr

/-- `search_metadata` (src/services/searchapi.ts:33-42). -/
structure SearchMetadata where
  id : String
  status : String
  json_endpoint : String
  created_at : String
  processed_at : String
  google_shopping_url : String
  raw_html_file : String
  total_time_taken : Int
  deriving DecidableEq, Repr

/-- `search_parameters` (src/services/searchapi.ts:43-49). -/
structure SearchParameters where
  engine : String
  q : String
  gl : String
  hl : String
  location : String
  deriving DecidableEq, Repr

/-- `search_information` (src/services/searchapi.ts:50-54). -/
structure SearchInformation where
  total_results : Int
  time_taken_displayed : Int
  query_displayed : String
  deriving DecidableEq, Repr

/-- `SearchApiResponse` (src/services/searchapi.ts:31-55).  The interface
declares `shopping_results` as required, but the code guards it with
`response.shopping_results || []`, so the runtime value may lack it; it is
therefore `Option` here. -/
structure SearchApiResponse where
  shopping_results : Option (List ShoppingResult)
  search_metadata : Option SearchMetadata
  search_parameters : Option SearchParameters
  search_information : Option SearchInformation
  deriving DecidableEq, Repr

/-- `GoogleShoppingSearchParams` (src/services/searchapi.ts:57-69): the
outbound query parameters; every field but `q` is optional. -/
structure GoogleShoppingSearchParams where
  q : String
  gl : Option String := none
  hl : Option String := none
  location : Option String := none
  start : Option Int := none
  num : Option Int := none
  tbm : Option String := none
  tbs : Option String := none
  safe : Option String := none
  nfpr : Option String := none
  filter : Option String := none
  deriving DecidableEq, Repr

/-- `Omit<GoogleShoppingSearchParams, 'q'>`: the options object accepted by
`searchProducts` and `searchProductsWithMetadata`.  A field is `none` when
the property is absent from the object. -/
structure ServiceOptions where
  gl : Option String := none
  hl : Option String := none
  location : Option String := none
  start : Option Int := none
  num : Option Int := none
  tbm : Option String := none
  tbs : Option String := none
  safe : Option String := none
  nfpr : Option String := none
  filter : Option String := none
  deriving DecidableEq, Repr

/-- The parameter merge shared by `searchProducts` and
`searchProductsWithMetadata` (src/services/searchapi.ts:138-144 and
154-160): an object literal first fills `gl`, `hl`, `location` with `||`
defaults, then `...options` spreads every property present in `options`
over it — so a property present in `options` (even a falsy one) wins, and
`num`, `start`, `tbm`, ... come only from `options`. -/
def buildSearchParams (query : String) (options : ServiceOptions) :
    GoogleShoppingSearchParams :=
  let defaulted : GoogleShoppingSearchParams :=
    { q := query,
      gl := some (jsOrStr options.gl "us"),
      hl := some (jsOrStr options.hl "en"),
      location := some (jsOrStr options.location "United States") }
  { q := defaulted.q,
    gl := match options.gl with
          | some v => some v
          | none => defaulted.gl,
    hl := match options.hl with
          | some v => some v
          | none => defaulted.hl,
    location := match options.location with
                | some v => some v
                | none => defaulted.location,
    start := options.start,
    num := options.num,
    tbm := options.tbm,
    tbs := options.tbs,
    safe := options.safe,
    nfpr := options.nfpr,
    filter := options.filter }

/-! ## Upstream call (src/services/searchapi.ts:80-132)

The `axios.get` itself is the external collaborator; its outcome is passed
in.  A failed axios call is classified the way the catch block reads it:
`error.response` present (non-2xx status), `error.request` present (no
response received), or any other thrown error. -/

/-- How an axios failure presents itself to the catch block of
`googleShoppingSSearch`. -/
inductive AxiosFailure where
  | responseError (status : Nat) (dataMessage : Option String) (statusText : String)
  | noResponse
  | other (message : String)
  deriving DecidableEq, Repr

/-- The error message thrown by the catch block of `googleShoppingSSearch`
(src/services/searchapi.ts:110-131).  `error.response.data?.message ||
error.response.statusText` is a truthiness default, so a missing or empty
data message falls back to the status text. -/
def axiosErrorMessage : AxiosFailure → String
  | AxiosFailure.responseError status dataMessage statusText =>
    "SearchAPI request failed with status " ++ toString status ++ ": " ++
      jsOrStr dataMessage statusText
  | AxiosFailure.noResponse => "SearchAPI request failed: No response received"
  | AxiosFailure.other message => "SearchAPI request failed: " ++ message

/-- `googleShoppingSSearch` (src/services/searchapi.ts:80-132): performs
the single `axios.get` (outcome supplied as `axios`) and on failure throws
the classified message.  The `Nat` counts how many axios invocations this
call makes — always exactly one; there is no retry loop. -/
def googleShoppingSSearch (_params : GoogleShoppingSearchParams)
    (axios : Except AxiosFailure SearchApiResponse) :
    Except String SearchApiResponse × Nat :=
  match axios with
  | Except.ok r => (Except.ok r, 1)
  | Except.error e => (Except.error (axiosErrorMessage e), 1)

/-- `searchProducts` (src/services/searchapi.ts:134-148): build the
parameters, run the upstream call, return `response.shopping_results || []`
(only a missing field is defaulted — an empty array is truthy in
JavaScript).  Alongside the result it reports the parameter set the
collaborator was invoked with and the invocation count. -/
def searchProducts (query : String) (options : ServiceOptions)
    (axios : Except AxiosFailure SearchApiResponse) :
    Except String (List ShoppingResult) × (GoogleShoppingSearchParams × Nat) :=
  let params := buildSearchParams query options
  let run := googleShoppingSSearch params axios
  (run.1.map (fun r => r.shopping_results.getD []), (params, run.2))

/-- `searchProductsWithMetadata` (src/services/searchapi.ts:150-163): same
parameter build, but the full response is returned. -/
def searchProductsWithMetadata (query : String) (options : ServiceOptions)
    (axios : Except AxiosFailure SearchApiResponse) :
    Except String SearchApiResponse × (GoogleShoppingSearchParams × Nat) :=
  let params := buildSearchParams query options
  let run := googleShoppingSSearch params axios
  (run.1, (params, run.2))

/-! ## `JSON.stringify(value, null, 2)`

The tool handler serialises its payloads with `JSON.stringify(..., null, 2)`
(src/index.ts:105 and 119).  The functions below embed that serialiser for
the value shapes that actually flow through it. -/

/-- One lower-case hexadecimal digit. -/
def hexDigit (n : Nat) : String :=
  String.singleton (if n < 10 then Char.ofNat (48 + n) else Char.ofNat (87 + n))

/-- `JSON.stringify` escaping of a single character of a string value. -/
def escapeJsonChar (c : Char) : String :=
  if c = '"' then "\\\""
  else if c = '\\' then "\\\\"
  else if c = '\n' then "\\n"
  else if c = '\r' then "\\r"
  else if c = '\t' then "\\t"
  else if c.toNat = 8 then "\\b"
  else if c.toNat = 12 then "\\f"
  else if c.toNat < 32 then "\\u00" ++ hexDigit (c.toNat / 16) ++ hexDigit (c.toNat % 16)
  else String.singleton c

/-- `JSON.stringify` escaping of a whole string value (without the
surrounding quotes). -/
def escapeJsonString (s : String) : String :=
  s.data.foldl (fun acc c => acc ++ escapeJsonChar c) ""

/-- JSON values, as far as the serialised payloads need them. -/
inductive Json where
  | str (s : String)
  | num (n : Int)
  | arr (elems : List Json)
  | obj (fields : List (String × Json))

/-- Two spaces per nesting level, the indent produced by
`JSON.stringify(value, null, 2)`. -/
def jsonIndent (depth : Nat) : String :=
  String.join (List.replicate depth "  ")

mutual

/-- Pretty printing of a JSON value exactly as
`JSON.stringify(value, null, 2)` lays it out: empty containers collapse,
non-empty containers put each element on its own line, indented two spaces
per depth. -/
def renderJson : Json → Nat → String
  | Json.str s, _ => "\"" ++ escapeJsonString s ++ "\""
  | Json.num n, _ => toString n
  | Json.arr [], _ => "[]"
  | Json.arr (e :: es), depth =>
    "[\n" ++ renderElems (e :: es) (depth + 1) ++ "\n" ++ jsonIndent depth ++ "]"
  | Json.obj [], _ => "\x7b\x7d"
  | Json.obj (f :: fs), depth =>
    "\x7b\n" ++ renderFields (f :: fs) (depth + 1) ++ "\n" ++ jsonIndent depth ++ "\x7d"

/-- Array elements, one per line, comma-separated. -/
def renderElems : List Json → Nat → String
  | [], _ => ""
  | [e], depth => jsonIndent depth ++ renderJson e depth
  | e :: e' :: es, depth =>
    jsonIndent depth ++ renderJson e depth ++ ",\n" ++ renderElems (e' :: es) depth

/-- Object fields, one per line, comma-separated. -/
def renderFields : List (String × Json) → Nat → String
  | [], _ => ""
  | [f], depth =>
    jsonIndent depth ++ "\"" ++ escapeJsonString f.1 ++ "\": " ++ renderJson f.2 depth
  | f :: f' :: fs, depth =>
    jsonIndent depth ++ "\"" ++ escapeJsonString f.1 ++ "\": " ++ renderJson f.2 depth
      ++ ",\n" ++ renderFields (f' :: fs) depth

end

/-- An optional field of a runtime object: `JSON.stringify` skips
properties whose value is `undefined`. -/
def optField (name : String) (j : Option Json) : List (String × Json) :=
  match j with
  | none => []
  | some v => [(name, v)]

/-- The runtime object of an `InstallmentInfo`, in interface field order. -/
def installmentToJson (i : InstallmentInfo) : Json :=
  Json.obj [("down_payment", Json.str i.down_payment),
    ("extracted_down_payment", Json.num i.extracted_down_payment),
    ("months", Json.str i.months),
    ("extracted_months", Json.num i.extracted_months),
    ("cost_per_month", Json.str i.cost_per_month),
    ("extracted_cost_per_month", Json.num i.extracted_cost_per_month)]

/-- The fields of the runtime object of a `ShoppingResult`, in interface
field order, with absent optional fields skipped. -/
def shoppingResultFields (r : ShoppingResult) : List (String × Json) :=
  ([("position", Json.num r.position),
      ("product_id", Json.str r.product_id),
      ("title", Json.str r.title),
      ("product_link", Json.str r.product_link),
      ("seller", Json.str r.seller),
      ("offers", Json.str r.offers),
      ("extracted_offers", Json.num r.extracted_offers),
      ("offers_link", Json.str r.offers_link),
      ("price", Json.str r.price),
      ("extracted_price", Json.num r.extracted_price)]
    ++ optField "installment" (r.installment.map installmentToJson)
    ++ optField "rating" (r.rating.map Json.num)
    ++ optField "reviews" (r.reviews.map Json.num)
    ++ optField "delivery" (r.delivery.map Json.str)
    ++ [("thumbnail", Json.str r.thumbnail)])

/-- The runtime object of a `ShoppingResult`. -/
def shoppingResultToJson (r : ShoppingResult) : Json :=
  Json.obj (shoppingResultFields r)

/-- `JSON.stringify(results, null, 2)` for the default tool path
(src/index.ts:119). -/
def jsonStringifyResults (results : List ShoppingResult) : String :=
  renderJson (Json.arr (results.map shoppingResultToJson)) 0

/-- The runtime object of a `SearchMetadata`. -/
def searchMetadataToJson (m : SearchMetadata) : Json :=
  Json.obj [("id", Json.str m.id),
    ("status", Json.str m.status),
    ("json_endpoint", Json.str m.json_endpoint),
    ("created_at", Json.str m.created_at),
    ("processed_at", Json.str m.processed_at),
    ("google_shopping_url", Json.str m.google_shopping_url),
    ("raw_html_file", Json.str m.raw_html_file),
    ("total_time_taken", Json.num m.total_time_taken)]

/-- The runtime object of a `SearchParameters`. -/
def searchParametersToJson (p : SearchParameters) : Json :=
  Json.obj [("engine", Json.str p.engine),
    ("q", Json.str p.q),
    ("gl", Json.str p.gl),
    ("hl", Json.str p.hl),
    ("location", Json.str p.location)]

/-- The runtime object of a `SearchInformation`. -/
def searchInformationToJson (i : SearchInformation) : Json :=
  Json.obj [("total_results", Json.num i.total_results),
    ("time_taken_displayed", Json.num i.time_taken_displayed),
    ("query_displayed", Json.str i.query_displayed)]

/-- The runtime object of a full `SearchApiResponse`, with absent optional
fields skipped. -/
def searchApiResponseToJson (r : SearchApiResponse) : Json :=
  Json.obj (optField "shopping_results"
      (r.shopping_results.map (fun l => Json.arr (l.map shoppingResultToJson)))
    ++ optField "search_metadata" (r.search_metadata.map searchMetadataToJson)
    ++ optField "search_parameters" (r.search_parameters.map searchParametersToJson)
    ++ optField "search_information" (r.search_information.map searchInformationToJson))

/-- `JSON.stringify(fullResponse, null, 2)` for the metadata tool path
(src/index.ts:105). -/
def jsonStringifyResponse (r : SearchApiResponse) : String :=
  renderJson (searchApiResponseToJson r) 0

/-! ## `formatShoppingResults` (src/services/searchapi.ts:165-200) -/

/-- Splits a digit list, least significant digit first, into groups of
three. -/
def chunk3 : List Char → List (List Char)
  | [] => []
  | a :: b :: c :: rest => [a, b, c] :: chunk3 rest
  | l => [l]

/-- `Number.prototype.toLocaleString()` for a nonnegative integer in the
default en-US locale: decimal digits in groups of three separated by
commas. -/
def natToLocaleString (n : Nat) : String :=
  String.mk (List.intercalate [','] (((chunk3 (toString n).data.reverse).map
    List.reverse).reverse))

/-- `toLocaleString` extended to `Int`. -/
def intToLocaleString (n : Int) : String :=
  if n < 0 then "-" ++ natToLocaleString n.natAbs else natToLocaleString n.natAbs

/-- One entry of `formatShoppingResults` (src/services/searchapi.ts:171-197).
`if (result.rating)` and `if (result.delivery)` are truthiness tests, so a
zero rating or an empty delivery string suppresses its line;
`result.reviews?.toLocaleString() || 0` renders a missing review count as
`0`. -/
def formatEntry (idx : Nat) (r : ShoppingResult) : String :=
  let lines :=
    [toString (idx + 1) ++ ". **" ++ r.title ++ "**",
     "   Seller: " ++ r.seller,
     "   Price: " ++ r.price]
  let lines := lines ++
    (match r.rating with
     | some rt =>
       if rt = 0 then []
       else ["   Rating: " ++ toString rt ++ "/5 (" ++
         (match r.reviews with
          | some rv => intToLocaleString rv
          | none => "0") ++ " reviews)"]
     | none => [])
  let lines := lines ++
    (match r.delivery with
     | some d => if d = "" then [] else ["   Delivery: " ++ d]
     | none => [])
  let lines := lines ++
    (match r.installment with
     | some i => ["   Installment: " ++ i.down_payment ++ " + " ++
         i.cost_per_month ++ " for " ++ i.months ++ " months"]
     | none => [])
  let lines := lines ++
    ["   Product Link: " ++ r.product_link,
     "   Offers: " ++ r.offers ++ " available"]
  String.intercalate "\n" lines

/-- `formatShoppingResults` (src/services/searchapi.ts:165-200): numbered
human-readable entries separated by blank lines, or a fixed sentence when
the list is empty. -/
def formatShoppingResults (results : List ShoppingResult) : String :=
  if results.isEmpty then "No shopping results found."
  else String.intercalate "\n\n" (results.enum.map (fun p => formatEntry p.1 p.2))

/-! ## The google-shopping-search tool (src/index.ts:37-134) -/

/-- The handler's argument object after zod validation: `query` is a plain
string, every other argument may be `undefined`. -/
structure ToolArgs where
  query : String
  location : Option String
  country : Option String
  language : Option String
  maxResults : Option Int
  includeMetadata : Option Bool
  deriving DecidableEq, Repr

/-- The handler's `searchOptions` object (src/index.ts:88-93): every option
defaulted with `||`, so a falsy value (missing, `""`, `0`) draws the
default. -/
def searchOptions (a : ToolArgs) : ServiceOptions :=
  { location := some (jsOrStr a.location "United States"),
    gl := some (jsOrStr a.country "us"),
    hl := some (jsOrStr a.language "en"),
    num := some (jsOrInt a.maxResults 10) }

/-- A piece of the tool result's `content` array. -/
inductive ContentBlock where
  | text (s : String)
  deriving DecidableEq, Repr

/-- The `google-shopping-search` tool handler (src/index.ts:73-133).  With
`includeMetadata` falsy it serialises the list from `searchProducts` with
`JSON.stringify(results, null, 2)`; with it truthy it serialises the full
response.  Any thrown error is caught and re-thrown as
`Google Shopping search failed: <message>`.  Alongside the tool outcome it
reports the upstream call's parameters and invocation count. -/
def googleShoppingToolHandler (a : ToolArgs)
    (axios : Except AxiosFailure SearchApiResponse) :
    Except String (List ContentBlock) × (GoogleShoppingSearchParams × Nat) :=
  let opts := searchOptions a
  if a.includeMetadata.getD false then
    let run := searchProductsWithMetadata a.query opts axios
    match run.1 with
    | Except.ok fullResponse =>
      (Except.ok [ContentBlock.text (jsonStringifyResponse fullResponse)], run.2)
    | Except.error e =>
      (Except.error ("Google Shopping search failed: " ++ e), run.2)
  else
    let run := searchProducts a.query opts axios
    match run.1 with
    | Except.ok results =>
      (Except.ok [ContentBlock.text (jsonStringifyResults results)], run.2)
    | Except.error e =>
      (Except.error ("Google Shopping search failed: " ++ e), run.2)

/-- The raw argument object of a tool call, before zod validation: each
argument may be absent. -/
structure RawToolArgs where
  query : Option String
  location : Option String
  country : Option String
  language : Option String
  maxResults : Option Int
  includeMetadata : Option Bool
  deriving DecidableEq, Repr

/-- The zod argument schema (src/index.ts:40-72): `query` is `z.string()` —
required, with no emptiness constraint; every other argument is optional
and passes through unchanged.  (`maxResults`'s `.default(10).optional()`
leaves an absent value absent: the outer `optional` short-circuits on
`undefined` before the inner default applies — the handler's
`maxResults || 10` is what supplies the default.) -/
def validateToolArgs (raw : RawToolArgs) : Option ToolArgs :=
  match raw.query with
  | none => none
  | some q =>
    some { query := q, location := raw.location, country := raw.country,
           language := raw.language, maxResults := raw.maxResults,
           includeMetadata := raw.includeMetadata }

/-- One tool call as dispatched by the MCP server: validate the arguments,
then run the handler.  When validation fails the handler never runs, so the
upstream collaborator is invoked zero times and no parameter set exists. -/
def runToolCall (raw : RawToolArgs)
    (axios : Except AxiosFailure SearchApiResponse) :
    Except String (List ContentBlock) × (Option GoogleShoppingSearchParams × Nat) :=
  match validateToolArgs raw with
  | none => (Except.error "Invalid arguments", (none, 0))
  | some a =>
    let run := googleShoppingToolHandler a axios
    (run.1, (some run.2.1, run.2.2))

/-! ## Helper lemmas -/

/-- Inserting a binding makes it visible to lookup. -/
theorem regLookup_insert_self (reg : Registry) (s : String) (t : Channel) :
    regLookup (regInsert reg s t) s = some t := by
  unfold regInsert
  by_cases h : (reg.find? (fun p => p.1 == s)).isSome
  · simp only [h, if_true]
    induction reg with
    | nil => simp [List.find?] at h
    | cons p tl ih =>
      by_cases hp : p.1 == s
      · simp [regLookup, List.find?, hp]
      · simp only [List.find?_cons, hp] at h
        simp only [List.map_cons, hp, if_false]
        simpa [regLookup, List.find?_cons, hp] using ih h
  · simp only [h, if_false]
    induction reg with
    | nil => simp [regLookup, List.find?]
    | cons p tl ih =>
      have hp : (p.1 == s) = false := by
        by_contra hc
        simp only [Bool.not_eq_false] at hc
        simp [List.find?_cons, hc] at h
      simp only [List.find?_cons, hp] at h
      simpa [regLookup, List.find?_cons, hp] using ih h

/-- Deleting a key that lookup does not find leaves the list unchanged. -/
theorem regDelete_of_lookup_none (reg : Registry) (s : String) :
    regLookup reg s = none → regDelete reg s = reg := by
  unfold regDelete
  induction reg with
  | nil => intro _; rfl
  | cons p tl ih =>
    intro h
    by_cases hp : p.1 == s
    · simp [regLookup, List.find?_cons, hp] at h
    · have htl : regLookup tl s = none := by
        simpa [regLookup, List.find?_cons, hp] using h
      have hne : (p.1 != s) = true := by simp [bne, hp]
      simp [List.filter_cons, hne, ih htl]

/-- `regDelete` is idempotent. -/
theorem regDelete_regDelete (reg : Registry) (s : String) :
    regDelete (regDelete reg s) s = regDelete reg s := by
  unfold regDelete
  rw [List.filter_filter]
  simp

/-! ## Claims -/

/-- C5: removing a session id from the Session Registry is idempotent —
removing an id the registry does not hold (in particular, removing the same
id twice in a row) leaves the registry unchanged; `regDelete` is a total
function, so no error can be raised; and the `transport.onclose` cleanup
inherits the same idempotence. -/
theorem c5_remove_idempotent (reg : Registry) (sid : String)
    (h : regLookup reg sid = none) :
    regDelete reg sid = reg ∧
    regDelete (regDelete reg sid) sid = regDelete reg sid ∧
    ∀ osid : Option String,
      oncloseCleanup (oncloseCleanup reg osid) osid = oncloseCleanup reg osid := by
  refine ⟨regDelete_of_lookup_none reg sid h, regDelete_regDelete reg sid, ?_⟩
  intro osid
  unfold oncloseCleanup
  by_cases ht : hdrTruthy osid
  · simp [ht, regDelete_regDelete]
  · simp [ht]

/-- Witness for C5 at a concrete registry. -/
theorem c5_witness :
    regDelete [("a", 1)] "b" = [("a", 1)] ∧
    regDelete (regDelete [("a", 1)] "b") "b" = regDelete [("a", 1)] "b" :=
  ⟨(c5_remove_idempotent [("a", 1)] "b" rfl).1,
   (c5_remove_idempotent [("a", 1)] "b" rfl).2.1⟩

/-- Counterexample to C6 as stated: the header value `constructor` names no
registered session, yet the GET/DELETE guard `!transports[sessionId]` sees
the truthy inherited `Object.prototype.constructor`, skips the 400
response, and the handler throws with no response written. -/
theorem c6_counterexample :
    regLookup [] "constructor" = none ∧
    handleSessionRequest (some "constructor") [] =
      (SessionResponse.thrownUnhandled, ([] : Registry)) ∧
    SessionResponse.thrownUnhandled ≠
      SessionResponse.badRequest 400 "Invalid or missing session ID" :=
  ⟨rfl, rfl, by decide⟩

/-- C6 (amended): every GET /mcp or DELETE /mcp request whose session-id
header is missing, empty, or names a key that is neither a registered
session nor an `Object.prototype` member draws status 400 with the
plain-text body `Invalid or missing session ID`; a header naming an
inherited `Object.prototype` key (for example `constructor`), though it
names no registered session, slips past the truthiness guard and the
handler throws without writing any response.  In both cases the Session
Registry is not mutated. -/
theorem c6_unknown_session_400 (hdr : Option String) (reg : Registry) :
    ((hdr = none ∨ hdr = some "" ∨
        (∀ s, hdr = some s → propRead reg s = PropRead.undef)) →
      handleSessionRequest hdr reg =
        (SessionResponse.badRequest 400 "Invalid or missing session ID", reg)) ∧
    (∀ s, hdr = some s → s ≠ "" → propRead reg s = PropRead.inherited →
      handleSessionRequest hdr reg = (SessionResponse.thrownUnhandled, reg)) := by
  constructor
  · intro h
    cases hdr with
    | none => simp [handleSessionRequest, hdrTruthy]
    | some s =>
      by_cases hs : s = ""
      · subst hs
        simp [handleSessionRequest, hdrTruthy]
      · have hread : propRead reg s = PropRead.undef := by
          rcases h with h | h | h
          · exact absurd h (by simp)
          · exact absurd h (by simp [hs])
          · exact h s rfl
        have ht : hdrTruthy (some s) = true := by simp [hdrTruthy, hs]
        simp [handleSessionRequest, ht, hread]
  · intro s hs hne hread
    subst hs
    have ht : hdrTruthy (some s) = true := by simp [hdrTruthy, hne]
    simp [handleSessionRequest, ht, hread]

/-- Witness for C6 at a concrete registry: an unknown plain id draws the
400, an unknown prototype-key id draws the unhandled throw. -/
theorem c6_witness :
    handleSessionRequest (some "ghost") [("live", 7)] =
      (SessionResponse.badRequest 400 "Invalid or missing session ID",
        [("live", 7)]) ∧
    handleSessionRequest (some "constructor") [("live", 7)] =
      (SessionResponse.thrownUnhandled, [("live", 7)]) :=
  ⟨(c6_unknown_session_400 (some "ghost") [("live", 7)]).1
      (Or.inr (Or.inr (fun s hs => by cases hs; rfl))),
   (c6_unknown_session_400 (some "constructor") [("live", 7)]).2
      "constructor" rfl (by decide) rfl⟩

/-- The outbound parameter set of a tool call is the handler's
`searchOptions` pushed through the service merge, independent of the
metadata flag and of the upstream outcome. -/
theorem toolHandlerParamsEq (a : ToolArgs)
    (axios : Except AxiosFailure SearchApiResponse) :
    (googleShoppingToolHandler a axios).2.1 =
      buildSearchParams a.query (searchOptions a) := by
  unfold googleShoppingToolHandler searchProducts searchProductsWithMetadata
  by_cases hm : a.includeMetadata.getD false
  · simp only [hm, if_true]
    rcases (googleShoppingSSearch (buildSearchParams a.query (searchOptions a)) axios).1 with _ | _ <;> simp
  · simp only [hm, if_false]
    rcases h : (googleShoppingSSearch (buildSearchParams a.query (searchOptions a)) axios).1.map
        (fun r => r.shopping_results.getD []) with _ | _ <;> simp [h]

/-- The four option fields of the outbound parameters, computed. -/
theorem toolHandlerParamsFields (a : ToolArgs)
    (axios : Except AxiosFailure SearchApiResponse) :
    (googleShoppingToolHandler a axios).2.1.gl = some (jsOrStr a.country "us") ∧
    (googleShoppingToolHandler a axios).2.1.hl = some (jsOrStr a.language "en") ∧
    (googleShoppingToolHandler a axios).2.1.location =
      some (jsOrStr a.location "United States") ∧
    (googleShoppingToolHandler a axios).2.1.num = some (jsOrInt a.maxResults 10) := by
  rw [toolHandlerParamsEq]
  refine ⟨?_, ?_, ?_, ?_⟩ <;> simp [buildSearchParams, searchOptions]

/-- C10 (implicit): defaulting treats every falsy option value as absent —
for every tool call, independently per option: supplying `maxResults = 0`
sends result count 10, and an empty-string location, country, or language
is replaced by its default rather than forwarded, whatever the other
arguments are. -/
theorem c10_falsy_options_defaulted (a : ToolArgs)
    (axios : Except AxiosFailure SearchApiResponse) :
    (a.maxResults = some 0 →
      (googleShoppingToolHandler a axios).2.1.num = some 10) ∧
    (a.location = some "" →
      (googleShoppingToolHandler a axios).2.1.location = some "United States") ∧
    (a.country = some "" →
      (googleShoppingToolHandler a axios).2.1.gl = some "us") ∧
    (a.language = some "" →
      (googleShoppingToolHandler a axios).2.1.hl = some "en") := by
  obtain ⟨h1, h2, h3, h4⟩ := toolHandlerParamsFields a axios
  refine ⟨fun hm => ?_, fun hl => ?_, fun hc => ?_, fun hg => ?_⟩
  · rw [hm] at h4; simpa [jsOrInt] using h4
  · rw [hl] at h3; simpa [jsOrStr] using h3
  · rw [hc] at h1; simpa [jsOrStr] using h1
  · rw [hg] at h2; simpa [jsOrStr] using h2

/-- A stub upstream response carrying no entries, used by concrete
witnesses. -/
def stubEmptyResponse : SearchApiResponse :=
  { shopping_results := some [], search_metadata := none,
    search_parameters := none, search_information := none }

/-- Witness for C10 at two concrete argument sets: one mixing
`maxResults = 0` with a non-empty location, one mixing an empty location
with an omitted `maxResults` — exhibiting the per-option independence. -/
theorem c10_witness :
    (googleShoppingToolHandler
      { query := "iPhone 15", location := some "New York", country := none,
        language := none, maxResults := some 0, includeMetadata := none }
      (Except.ok stubEmptyResponse)).2.1.num = some 10 ∧
    (googleShoppingToolHandler
      { query := "iPhone 15", location := some "", country := some "",
        language := some "", maxResults := none, includeMetadata := none }
      (Except.ok stubEmptyResponse)).2.1.location = some "United States" ∧
    (googleShoppingToolHandler
      { query := "iPhone 15", location := some "", country := some "",
        language := some "", maxResults := none, includeMetadata := none }
      (Except.ok stubEmptyResponse)).2.1.gl = some "us" ∧
    (googleShoppingToolHandler
      { query := "iPhone 15", location := some "", country := some "",
        language := some "", maxResults := none, includeMetadata := none }
      (Except.ok stubEmptyResponse)).2.1.hl = some "en" :=
  ⟨(c10_falsy_options_defaulted
      { query := "iPhone 15", location := some "New York", country := none,
        language := none, maxResults := some 0, includeMetadata := none }
      (Except.ok stubEmptyResponse)).1 rfl,
   (c10_falsy_options_defaulted
      { query := "iPhone 15", location := some "", country := some "",
        language := some "", maxResults := none, includeMetadata := none }
      (Except.ok stubEmptyResponse)).2.1 rfl,
   (c10_falsy_options_defaulted
      { query := "iPhone 15", location := some "", country := some "",
        language := some "", maxResults := none, includeMetadata := none }
      (Except.ok stubEmptyResponse)).2.2.1 rfl,
   (c10_falsy_options_defaulted
      { query := "iPhone 15", location := some "", country := some "",
        language := some "", maxResults := none, includeMetadata := none }
      (Except.ok stubEmptyResponse)).2.2.2 rfl⟩

/-- Counterexample to C8 as stated: the caller-supplied explicit option
`maxResults = 0` does not override the default — the outbound request
carries result count 10, not 0, because `maxResults || 10` treats 0 as
absent. -/
theorem c8_counterexample :
    (googleShoppingToolHandler
      { query := "iPhone 15", location := none, country := none,
        language := none, maxResults := some 0, includeMetadata := none }
      (Except.ok stubEmptyResponse)).2.1.num = some 10 ∧
    (some (10 : Int) ≠ some (0 : Int)) :=
  ⟨rfl, by decide⟩

/-- C8 (amended): the outbound request carries country code `us`, language
code `en`, location `United States` and result count 10 whenever the caller
omits the corresponding option, and a caller-supplied explicit option
overrides the default provided it is not falsy (a non-empty string, a
non-zero count). -/
theorem c8_defaults_and_overrides (a : ToolArgs)
    (axios : Except AxiosFailure SearchApiResponse) :
    (a.country = none → (googleShoppingToolHandler a axios).2.1.gl = some "us") ∧
    (a.language = none → (googleShoppingToolHandler a axios).2.1.hl = some "en") ∧
    (a.location = none →
      (googleShoppingToolHandler a axios).2.1.location = some "United States") ∧
    (a.maxResults = none → (googleShoppingToolHandler a axios).2.1.num = some 10) ∧
    (∀ c, a.country = some c → c ≠ "" →
      (googleShoppingToolHandler a axios).2.1.gl = some c) ∧
    (∀ l, a.language = some l → l ≠ "" →
      (googleShoppingToolHandler a axios).2.1.hl = some l) ∧
    (∀ l, a.location = some l → l ≠ "" →
      (googleShoppingToolHandler a axios).2.1.location = some l) ∧
    (∀ m, a.maxResults = some m → m ≠ 0 →
      (googleShoppingToolHandler a axios).2.1.num = some m) := by
  obtain ⟨h1, h2, h3, h4⟩ := toolHandlerParamsFields a axios
  refine ⟨fun hc => ?_, fun hg => ?_, fun hl => ?_, fun hm => ?_,
    fun c hc hne => ?_, fun l hg hne => ?_, fun l hl hne => ?_, fun m hm hne => ?_⟩
  · rw [hc] at h1; simpa [jsOrStr] using h1
  · rw [hg] at h2; simpa [jsOrStr] using h2
  · rw [hl] at h3; simpa [jsOrStr] using h3
  · rw [hm] at h4; simpa [jsOrInt] using h4
  · rw [hc] at h1; simpa [jsOrStr, hne] using h1
  · rw [hg] at h2; simpa [jsOrStr, hne] using h2
  · rw [hl] at h3; simpa [jsOrStr, hne] using h3
  · rw [hm] at h4; simpa [jsOrInt, hne] using h4

/-- Witness for C8 at concrete argument sets: one all-defaults call and one
call with explicit non-falsy options. -/
theorem c8_witness :
    (googleShoppingToolHandler
      { query := "iPhone 15", location := none, country := none,
        language := none, maxResults := none, includeMetadata := none }
      (Except.ok stubEmptyResponse)).2.1.gl = some "us" ∧
    (googleShoppingToolHandler
      { query := "iPhone 15", location := none, country := none,
        language := none, maxResults := none, includeMetadata := none }
      (Except.ok stubEmptyResponse)).2.1.num = some 10 ∧
    (googleShoppingToolHandler
      { query := "iPhone 15", location := some "New York", country := some "uk",
        language := some "fr", maxResults := some 5, includeMetadata := none }
      (Except.ok stubEmptyResponse)).2.1.gl = some "uk" ∧
    (googleShoppingToolHandler
      { query := "iPhone 15", location := some "New York", country := some "uk",
        language := some "fr", maxResults := some 5, includeMetadata := none }
      (Except.ok stubEmptyResponse)).2.1.num = some 5 :=
  ⟨(c8_defaults_and_overrides _ _).1 rfl,
   (c8_defaults_and_overrides _ _).2.2.2.1 rfl,
   (c8_defaults_and_overrides _ _).2.2.2.2.1 "uk" rfl (by decide),
   (c8_defaults_and_overrides _ _).2.2.2.2.2.2.2 5 rfl (by decide)⟩

/-- Counterexample to C9 as stated: a tool call whose query is the empty
string passes the zod validation (which only requires a string) and the
external collaborator is invoked — once, with q set to the empty string —
rather than the call being rejected beforehand. -/
theorem c9_counterexample :
    validateToolArgs
      { query := some "", location := none, country := none, language := none,
        maxResults := none, includeMetadata := none } ≠ none ∧
    (runToolCall
      { query := some "", location := none, country := none, language := none,
        maxResults := none, includeMetadata := none }
      (Except.ok stubEmptyResponse)).2.2 = 1 ∧
    (runToolCall
      { query := some "", location := none, country := none, language := none,
        maxResults := none, includeMetadata := none }
      (Except.ok stubEmptyResponse)).2.1 =
      some (buildSearchParams ""
        { location := some "United States", gl := some "us", hl := some "en",
          num := some 10 }) :=
  ⟨by decide, rfl, rfl⟩

/-- C9 (amended): the zod validation requires the query argument to be
present (a string); it imposes no non-emptiness constraint, so a call with
an empty-string query passes validation and invokes the collaborator once
with that query, while only a missing query is rejected before the
collaborator is consulted. -/
theorem c9_query_presence_only (raw : RawToolArgs)
    (axios : Except AxiosFailure SearchApiResponse) :
    (raw.query = none → validateToolArgs raw = none ∧
      (runToolCall raw axios).2.2 = 0 ∧ (runToolCall raw axios).2.1 = none) ∧
    (∀ q, raw.query = some q →
      (validateToolArgs raw).isSome ∧
      (runToolCall raw axios).2.2 = 1 ∧
      ∃ p, (runToolCall raw axios).2.1 = some p ∧ p.q = q) := by
  constructor
  · intro h
    refine ⟨by simp [validateToolArgs, h], ?_, ?_⟩ <;>
      simp [runToolCall, validateToolArgs, h]
  · intro q h
    have hv : validateToolArgs raw =
        some { query := q, location := raw.location, country := raw.country,
               language := raw.language, maxResults := raw.maxResults,
               includeMetadata := raw.includeMetadata } := by
      simp [validateToolArgs, h]
    refine ⟨by simp [hv], ?_, ?_⟩
    · simp only [runToolCall, hv]
      unfold googleShoppingToolHandler
      by_cases hm : (raw.includeMetadata.getD false : Bool)
      · simp only [hm, if_true]
        unfold searchProductsWithMetadata googleShoppingSSearch
        rcases axios with _ | _ <;> simp
      · simp only [hm, if_false]
        unfold searchProducts googleShoppingSSearch
        rcases axios with _ | _ <;> simp [Except.map]
    · refine ⟨buildSearchParams q (searchOptions
        { query := q, location := raw.location, country := raw.country,
          language := raw.language, maxResults := raw.maxResults,
          includeMetadata := raw.includeMetadata }), ?_, ?_⟩
      · simp only [runToolCall, hv]
        rw [toolHandlerParamsEq]
      · simp [buildSearchParams]

/-- Witness for C9 at a concrete missing-query call and a concrete
present-query call. -/
theorem c9_witness :
    (validateToolArgs
      { query := none, location := none, country := none, language := none,
        maxResults := none, includeMetadata := none } = none ∧
      (runToolCall
        { query := none, location := none, country := none, language := none,
          maxResults := none, includeMetadata := none }
        (Except.ok stubEmptyResponse)).2.2 = 0 ∧
      (runToolCall
        { query := none, location := none, country := none, language := none,
          maxResults := none, includeMetadata := none }
        (Except.ok stubEmptyResponse)).2.1 = none) ∧
    (runToolCall
      { query := some "running shoes", location := none, country := none,
        language := none, maxResults := none, includeMetadata := none }
      (Except.ok stubEmptyResponse)).2.2 = 1 :=
  ⟨(c9_query_presence_only _ (Except.ok stubEmptyResponse)).1 rfl,
   ((c9_query_presence_only _ (Except.ok stubEmptyResponse)).2 "running shoes" rfl).2.1⟩

/-- C4: every failure raised by the external search collaborator during a
tool call is caught by the Tool Invocation Handler and re-raised as a
tool-level error whose message carries the collaborator failure's message
verbatim (as a literal substring); the handler performs exactly one
collaborator invocation — no retry — and the result is an error, never a
silently successful payload. -/
theorem c4_upstream_error_surfaced (a : ToolArgs) (e : AxiosFailure) :
    (googleShoppingToolHandler a (Except.error e)).1 =
      Except.error ("Google Shopping search failed: " ++ axiosErrorMessage e) ∧
    (∃ pre suf, "Google Shopping search failed: " ++ axiosErrorMessage e =
      pre ++ axiosErrorMessage e ++ suf) ∧
    (googleShoppingToolHandler a (Except.error e)).2.2 = 1 := by
  refine ⟨?_, ⟨"Google Shopping search failed: ", "", by simp⟩, ?_⟩ <;>
  · unfold googleShoppingToolHandler searchProducts searchProductsWithMetadata
      googleShoppingSSearch
    by_cases hm : (a.includeMetadata.getD false : Bool) <;> simp [hm, Except.map]

/-- Counterexample to C1 as stated, at two concrete inputs.  First, a POST
carrying the session-id header with the empty-string value and a
session-initialization body falls into the claim's third case (header
present, no live session — so the structured -32000 rejection), yet the
code creates a new channel, because `if (sessionId && ...)` /
`else if (!sessionId && ...)` treat the empty-string header exactly like an
absent one.  Second, a POST whose header is `constructor` — present, with
no live session for it — is not rejected either: the truthiness check sees
the inherited `Object.prototype.constructor`, takes the resume branch with
that non-transport value, the forward throws, and the catch answers
the 500 status with code -32603 instead of the claimed -32000 body. -/
theorem c1_counterexample :
    classifyPost (some "") [] true = PostAction.create ∧
    claimClassifyPost (some "") [] true = PostAction.reject ∧
    (postMcp (some "") [] true "fresh-id" 0 true HttpOutcome.ok).response =
      PostResponse.delegated 0 ∧
    regLookup [] "constructor" = none ∧
    classifyPost (some "constructor") [] false = PostAction.resumeInherited ∧
    claimClassifyPost (some "constructor") [] false = PostAction.reject ∧
    (postMcp (some "constructor") [] false "fresh-id" 0 true
      HttpOutcome.thrownBeforeHeaders).response =
      PostResponse.internalError 500
        { jsonrpc := "2.0", code := -32603,
          message := "Internal server error", idNull := true } ∧
    PostAction.create ≠ PostAction.reject :=
  ⟨rfl, rfl, rfl, rfl, rfl, rfl, rfl, by decide⟩

/-- C1 (amended): every inbound POST /mcp request takes exactly one of four
paths, selected by JavaScript truthiness — (resume) the header carries a
non-empty value whose property read finds a registered session: the body is
forwarded to that session's channel; (inherited resume) the header carries
a non-empty `Object.prototype` key with no registered session: the resume
branch is taken with the truthy inherited member, the forward throws before
any headers, and the catch answers the structured -32603 internal error
(HTTP 500), not -32000; (create) the header is absent or empty and the body
is a session-initialization message: a new channel is created; (reject)
otherwise — absent/empty header with a non-init body, or a non-empty header
that is neither registered nor an `Object.prototype` key — the response is
the structured JSON-RPC error code -32000, message
`Bad Request: No valid session ID provided`, id null, and no channel is
touched (the registry is returned unchanged). -/
theorem c1_classification (hdr : Option String) (reg : Registry)
    (isInit : Bool) (newId : String) (newChan : Channel) (confirmed : Bool)
    (http : HttpOutcome) :
    (∀ s t, hdr = some s → s ≠ "" → propRead reg s = PropRead.transport t →
      classifyPost hdr reg isInit = PostAction.resume t ∧
      (http = HttpOutcome.ok →
        (postMcp hdr reg isInit newId newChan confirmed http).response =
          PostResponse.delegated t ∧
        (postMcp hdr reg isInit newId newChan confirmed http).registry = reg)) ∧
    (∀ s, hdr = some s → s ≠ "" → propRead reg s = PropRead.inherited →
      classifyPost hdr reg isInit = PostAction.resumeInherited ∧
      (http = HttpOutcome.thrownBeforeHeaders →
        (postMcp hdr reg isInit newId newChan confirmed http).response =
          PostResponse.internalError 500
            { jsonrpc := "2.0", code := -32603,
              message := "Internal server error", idNull := true } ∧
        (postMcp hdr reg isInit newId newChan confirmed http).registry = reg ∧
        (postMcp hdr reg isInit newId newChan confirmed http).logged = true)) ∧
    ((hdr = none ∨ hdr = some "") → isInit = true →
      classifyPost hdr reg isInit = PostAction.create ∧
      (http = HttpOutcome.ok → confirmed = true →
        (postMcp hdr reg isInit newId newChan confirmed http).response =
          PostResponse.delegated newChan ∧
        regLookup (postMcp hdr reg isInit newId newChan confirmed http).registry
          newId = some newChan)) ∧
    (((hdrTruthy hdr = false ∧ isInit = false) ∨
      (∃ s, hdr = some s ∧ s ≠ "" ∧ propRead reg s = PropRead.undef)) →
      classifyPost hdr reg isInit = PostAction.reject ∧
      (postMcp hdr reg isInit newId newChan confirmed http).response =
        PostResponse.badRequest 400
          { jsonrpc := "2.0", code := -32000,
            message := "Bad Request: No valid session ID provided",
            idNull := true } ∧
      (postMcp hdr reg isInit newId newChan confirmed http).registry = reg ∧
      (postMcp hdr reg isInit newId newChan confirmed http).logged = false) := by
  refine ⟨?_, ?_, ?_, ?_⟩
  · intro s t hs hne hread
    subst hs
    have ht : hdrTruthy (some s) = true := by simp [hdrTruthy, hne]
    have hc : classifyPost (some s) reg isInit = PostAction.resume t := by
      simp [classifyPost, ht, hread]
    refine ⟨hc, fun hok => ?_⟩
    subst hok
    simp [postMcp, hc]
  · intro s hs hne hread
    subst hs
    have ht : hdrTruthy (some s) = true := by simp [hdrTruthy, hne]
    have hc : classifyPost (some s) reg isInit = PostAction.resumeInherited := by
      simp [classifyPost, ht, hread]
    refine ⟨hc, fun hthrow => ?_⟩
    subst hthrow
    simp [postMcp, hc]
  · intro habs hinit
    have ht : hdrTruthy hdr = false := by
      rcases habs with h | h <;> simp [h, hdrTruthy]
    have hc : classifyPost hdr reg isInit = PostAction.create := by
      simp [classifyPost, ht, hinit]
    refine ⟨hc, fun hok hconf => ?_⟩
    subst hok; subst hconf
    simp [postMcp, hc, regLookup_insert_self]
  · intro h
    have hc : classifyPost hdr reg isInit = PostAction.reject := by
      rcases h with ⟨ht, hi⟩ | ⟨s, hs, hne, hread⟩
      · simp [classifyPost, ht, hi]
      · subst hs
        have ht : hdrTruthy (some s) = true := by simp [hdrTruthy, hne]
        simp [classifyPost, ht, hread]
    refine ⟨hc, ?_, ?_, ?_⟩ <;> simp [postMcp, hc]

/-- Witness for C1 at concrete requests: a resume for a registered id, an
inherited resume for a prototype-key header, a create for a header-less
init body, and a rejection for an unknown plain id. -/
theorem c1_witness :
    classifyPost (some "sid-1") [("sid-1", 3)] false = PostAction.resume 3 ∧
    classifyPost (some "toString") [("sid-1", 3)] false =
      PostAction.resumeInherited ∧
    classifyPost none [] true = PostAction.create ∧
    (postMcp (some "ghost") [("sid-1", 3)] false "n" 9 true HttpOutcome.ok).response =
      PostResponse.badRequest 400
        { jsonrpc := "2.0", code := -32000,
          message := "Bad Request: No valid session ID provided",
          idNull := true } :=
  ⟨((c1_classification (some "sid-1") [("sid-1", 3)] false "n" 9 true
      HttpOutcome.ok).1 "sid-1" 3 rfl (by decide) rfl).1,
   ((c1_classification (some "toString") [("sid-1", 3)] false "n" 9 true
      HttpOutcome.ok).2.1 "toString" rfl (by decide) rfl).1,
   ((c1_classification none [] true "n" 9 true HttpOutcome.ok).2.2.1
      (Or.inl rfl) rfl).1,
   ((c1_classification (some "ghost") [("sid-1", 3)] false "n" 9 true
      HttpOutcome.ok).2.2.2
      (Or.inr ⟨"ghost", rfl, by decide, rfl⟩)).2.1⟩

/-- C7: when constructing or forwarding to a channel throws during a POST
/mcp request, the gateway logs the failure, and it writes the structured
internal-error response (HTTP 500, code -32603, id null) if and only if no
part of a response has been sent; once a response has begun, the error is
only logged and no second response is written. -/
theorem c7_internal_error_once (hdr : Option String) (reg : Registry)
    (isInit : Bool) (newId : String) (newChan : Channel) (confirmed : Bool)
    (http : HttpOutcome)
    (hc : classifyPost hdr reg isInit ≠ PostAction.reject)
    (he : http ≠ HttpOutcome.ok) :
    (postMcp hdr reg isInit newId newChan confirmed http).logged = true ∧
    ((∃ b, (postMcp hdr reg isInit newId newChan confirmed http).response =
        PostResponse.internalError 500 b) ↔
      http = HttpOutcome.thrownBeforeHeaders) ∧
    (http = HttpOutcome.thrownBeforeHeaders →
      (postMcp hdr reg isInit newId newChan confirmed http).response =
        PostResponse.internalError 500
          { jsonrpc := "2.0", code := -32603,
            message := "Internal server error", idNull := true }) ∧
    (http = HttpOutcome.thrownAfterHeaders →
      (postMcp hdr reg isInit newId newChan confirmed http).response =
        PostResponse.abortedMidResponse) := by
  rcases hcl : classifyPost hdr reg isInit with t | _ | _ | _
  · rcases http with _ | _ | _
    · exact absurd rfl he
    · simp [postMcp, hcl]
    · simp [postMcp, hcl]
  · rcases http with _ | _ | _
    · exact absurd rfl he
    · simp [postMcp, hcl]
    · simp [postMcp, hcl]
  · rcases http with _ | _ | _
    · exact absurd rfl he
    · simp [postMcp, hcl]
    · simp [postMcp, hcl]
  · exact absurd hcl hc

/-- Witness for C7 at a concrete resumed session whose forwarding throws
before, respectively after, the response headers went out. -/
theorem c7_witness :
    (postMcp (some "sid-1") [("sid-1", 3)] false "n" 9 true
      HttpOutcome.thrownBeforeHeaders).response =
      PostResponse.internalError 500
        { jsonrpc := "2.0", code := -32603,
          message := "Internal server error", idNull := true } ∧
    (postMcp (some "sid-1") [("sid-1", 3)] false "n" 9 true
      HttpOutcome.thrownAfterHeaders).response =
      PostResponse.abortedMidResponse ∧
    (postMcp (some "sid-1") [("sid-1", 3)] false "n" 9 true
      HttpOutcome.thrownAfterHeaders).logged = true :=
  ⟨(c7_internal_error_once (some "sid-1") [("sid-1", 3)] false "n" 9 true
      HttpOutcome.thrownBeforeHeaders (by decide) (by decide)).2.2.1 rfl,
   (c7_internal_error_once (some "sid-1") [("sid-1", 3)] false "n" 9 true
      HttpOutcome.thrownAfterHeaders (by decide) (by decide)).2.2.2 rfl,
   (c7_internal_error_once (some "sid-1") [("sid-1", 3)] false "n" 9 true
      HttpOutcome.thrownAfterHeaders (by decide) (by decide)).1⟩

/-- C3: on the create path, for a fresh session id the event trace is
exactly id-confirmed, then registered, then the triggering body forwarded;
along every trace prefix that does not yet hold the registration event the
registry still lacks the id (so the entry cannot exist before the channel
confirms it), and after the path completes the id is visible to subsequent
resume lookups. -/
theorem c3_create_ordering (reg : Registry) (sid : String) (chan : Channel)
    (h : regLookup reg sid = none) :
    (createPath reg sid chan).2 =
      [Ev.confirmId sid, Ev.register sid, Ev.forwardBody] ∧
    (∀ pre suf, (createPath reg sid chan).2 = pre ++ suf →
      Ev.register sid ∉ pre →
      regLookup (regAfter chan reg pre) sid = none) ∧
    regLookup (createPath reg sid chan).1 sid = some chan := by
  refine ⟨rfl, ?_, ?_⟩
  · intro pre suf heq hnot
    have htr : (createPath reg sid chan).2 =
        [Ev.confirmId sid, Ev.register sid, Ev.forwardBody] := rfl
    rw [htr] at heq
    match pre with
    | [] => simpa [regAfter] using h
    | [a] =>
      obtain ⟨h1, -⟩ : Ev.confirmId sid = a ∧ [Ev.register sid, Ev.forwardBody] = suf := by
        simpa using heq
      subst h1
      simpa [regAfter] using h
    | a :: b :: rest =>
      exfalso
      obtain ⟨-, h2, -⟩ :
          Ev.confirmId sid = a ∧ Ev.register sid = b ∧ [Ev.forwardBody] = rest ++ suf := by
        simpa using heq
      subst h2
      exact hnot (by simp)
  · simpa [createPath, channelHandleInit, storeTransportCallback] using
      regLookup_insert_self reg sid chan

/-- Witness for C3 at a concrete fresh session. -/
theorem c3_witness :
    (createPath [] "s-1" 4).2 =
      [Ev.confirmId "s-1", Ev.register "s-1", Ev.forwardBody] ∧
    regLookup (regAfter 4 [] [Ev.confirmId "s-1"]) "s-1" = none ∧
    regLookup (createPath [] "s-1" 4).1 "s-1" = some 4 :=
  ⟨(c3_create_ordering [] "s-1" 4 rfl).1,
   (c3_create_ordering [] "s-1" 4 rfl).2.1 [Ev.confirmId "s-1"]
     [Ev.register "s-1", Ev.forwardBody] rfl (by decide),
   (c3_create_ordering [] "s-1" 4 rfl).2.2⟩

/-! ## Substring containment, for C2 -/

/-- The string s contains t as a contiguous substring. -/
def containsStr (s t : String) : Prop := ∃ pre suf, s = pre ++ t ++ suf

/-- Containment through a decomposed enclosing string. -/
theorem containsStr_of_part (s y t pre suf : String) (hs : s = pre ++ y ++ suf)
    (hy : containsStr y t) : containsStr s t := by
  obtain ⟨p, q, hy'⟩ := hy
  exact ⟨pre ++ p, q ++ suf, by simp [hs, hy', String.append_assoc]⟩

/-- Containment is transitive. -/
theorem containsStr_trans {s y t : String} (h1 : containsStr s y)
    (h2 : containsStr y t) : containsStr s t := by
  obtain ⟨p, q, h1'⟩ := h1
  exact containsStr_of_part s y t p q h1' h2

/-- Every element's rendering occurs inside the rendered element list. -/
theorem renderElems_contains {e : Json} {l : List Json} (d : Nat) (he : e ∈ l) :
    containsStr (renderElems l d) (renderJson e d) := by
  induction l with
  | nil => cases he
  | cons x tl ih =>
    rcases tl with _ | ⟨y, tl2⟩
    · rcases List.mem_singleton.mp he with rfl
      exact ⟨jsonIndent d, "", by simp [renderElems]⟩
    · rcases List.mem_cons.mp he with rfl | hmem
      · exact ⟨jsonIndent d, ",\n" ++ renderElems (y :: tl2) d, by
          simp [renderElems, String.append_assoc]⟩
      · exact containsStr_of_part _ (renderElems (y :: tl2) d) _
          (jsonIndent d ++ renderJson x d ++ ",\n") ""
          (by simp [renderElems, String.append_assoc]) (ih hmem)

/-- Every field's rendering occurs inside the rendered field list. -/
theorem renderFields_contains {f : String × Json} {l : List (String × Json)}
    (d : Nat) (hf : f ∈ l) :
    containsStr (renderFields l d)
      ("\"" ++ escapeJsonString f.1 ++ "\": " ++ renderJson f.2 d) := by
  induction l with
  | nil => cases hf
  | cons x tl ih =>
    rcases tl with _ | ⟨y, tl2⟩
    · rcases List.mem_singleton.mp hf with rfl
      exact ⟨jsonIndent d, "", by simp [renderFields, String.append_assoc]⟩
    · rcases List.mem_cons.mp hf with rfl | hmem
      · exact ⟨jsonIndent d, ",\n" ++ renderFields (y :: tl2) d, by
          simp [renderFields, String.append_assoc]⟩
      · exact containsStr_of_part _ (renderFields (y :: tl2) d) _
          (jsonIndent d ++ "\"" ++ escapeJsonString x.1 ++ "\": " ++
            renderJson x.2 d ++ ",\n") ""
          (by simp [renderFields, String.append_assoc]) (ih hmem)

/-- A member element's rendering occurs inside a rendered array. -/
theorem renderJson_arr_contains {e : Json} {l : List Json} (d : Nat)
    (he : e ∈ l) :
    containsStr (renderJson (Json.arr l) d) (renderJson e (d + 1)) := by
  rcases l with _ | ⟨x, xs⟩
  · cases he
  · exact containsStr_of_part _ (renderElems (x :: xs) (d + 1)) _ "[\n"
      ("\n" ++ jsonIndent d ++ "]")
      (by simp [renderJson, String.append_assoc])
      (renderElems_contains (d + 1) he)

/-- A member field's rendering occurs inside a rendered object. -/
theorem renderJson_obj_contains {f : String × Json} {l : List (String × Json)}
    (d : Nat) (hf : f ∈ l) :
    containsStr (renderJson (Json.obj l) d)
      ("\"" ++ escapeJsonString f.1 ++ "\": " ++ renderJson f.2 (d + 1)) := by
  rcases l with _ | ⟨x, xs⟩
  · cases hf
  · exact containsStr_of_part _ (renderFields (x :: xs) (d + 1)) _ "\x7b\n"
      ("\n" ++ jsonIndent d ++ "\x7d")
      (by simp [renderJson, String.append_assoc])
      (renderFields_contains (d + 1) hf)

/-- The four identifying fields are members of every shopping entry's field
list. -/
theorem shoppingResultFields_mem (r : ShoppingResult) :
    ("title", Json.str r.title) ∈ shoppingResultFields r ∧
    ("seller", Json.str r.seller) ∈ shoppingResultFields r ∧
    ("price", Json.str r.price) ∈ shoppingResultFields r ∧
    ("product_link", Json.str r.product_link) ∈ shoppingResultFields r := by
  refine ⟨?_, ?_, ?_, ?_⟩ <;> simp [shoppingResultFields]

/-- Rendering a string-valued field, flattened to literal form. -/
theorem field_str_flat (name lit v : String)
    (hname : ("\"" ++ escapeJsonString name ++ "\": ") ++ "\"" = lit) :
    "\"" ++ escapeJsonString name ++ "\": " ++ renderJson (Json.str v) 2 =
      lit ++ escapeJsonString v ++ "\"" := by
  subst hname
  simp only [renderJson, String.append_assoc]

/-- Each entry of the serialised list exposes its title, seller, price and
product link as quoted JSON fields of the text block. -/
theorem jsonStringifyResults_contains {r : ShoppingResult}
    {results : List ShoppingResult} (hr : r ∈ results) :
    containsStr (jsonStringifyResults results)
      ("\"title\": \"" ++ escapeJsonString r.title ++ "\"") ∧
    containsStr (jsonStringifyResults results)
      ("\"seller\": \"" ++ escapeJsonString r.seller ++ "\"") ∧
    containsStr (jsonStringifyResults results)
      ("\"price\": \"" ++ escapeJsonString r.price ++ "\"") ∧
    containsStr (jsonStringifyResults results)
      ("\"product_link\": \"" ++ escapeJsonString r.product_link ++ "\"") := by
  obtain ⟨m1, m2, m3, m4⟩ := shoppingResultFields_mem r
  have harr : containsStr (jsonStringifyResults results)
      (renderJson (shoppingResultToJson r) 1) :=
    renderJson_arr_contains 0 (List.mem_map_of_mem shoppingResultToJson hr)
  refine ⟨?_, ?_, ?_, ?_⟩
  · have h1 := containsStr_trans harr
      (@renderJson_obj_contains ("title", Json.str r.title)
        (shoppingResultFields r) 1 m1)
    rwa [field_str_flat "title" "\"title\": \"" r.title rfl] at h1
  · have h1 := containsStr_trans harr
      (@renderJson_obj_contains ("seller", Json.str r.seller)
        (shoppingResultFields r) 1 m2)
    rwa [field_str_flat "seller" "\"seller\": \"" r.seller rfl] at h1
  · have h1 := containsStr_trans harr
      (@renderJson_obj_contains ("price", Json.str r.price)
        (shoppingResultFields r) 1 m3)
    rwa [field_str_flat "price" "\"price\": \"" r.price rfl] at h1
  · have h1 := containsStr_trans harr
      (@renderJson_obj_contains ("product_link", Json.str r.product_link)
        (shoppingResultFields r) 1 m4)
    rwa [field_str_flat "product_link" "\"product_link\": \"" r.product_link rfl] at h1

/-- A concrete stub entry used by the concrete C2 statements. -/
def stubEntry : ShoppingResult :=
  { position := 1, product_id := "p1", title := "Laptop", product_link := "http://x",
    seller := "Shop", offers := "3", extracted_offers := 3, offers_link := "http://o",
    price := "$5", extracted_price := 5, installment := none, rating := none,
    reviews := none, delivery := none, thumbnail := "t" }

/-- A stub upstream response carrying exactly the stub entry. -/
def stubResponse : SearchApiResponse :=
  { shopping_results := some [stubEntry], search_metadata := none,
    search_parameters := none, search_information := none }

/-- Arguments of a plain default-path tool call. -/
def stubArgs : ToolArgs :=
  { query := "wireless headphones", location := none, country := none,
    language := none, maxResults := some 5, includeMetadata := none }

/-- Counterexample to C2 as stated: on the default (no-metadata) path the
handler serialises the raw entry list with JSON.stringify and never invokes
the formatted-lines renderer `formatShoppingResults` — at a concrete stub
entry the produced text block differs from the formatted-lines listing the
claim describes. -/
theorem c2_counterexample :
    (googleShoppingToolHandler stubArgs (Except.ok stubResponse)).1 =
      Except.ok [ContentBlock.text (jsonStringifyResults [stubEntry])] ∧
    jsonStringifyResults [stubEntry] ≠ formatShoppingResults [stubEntry] :=
  ⟨rfl, by decide⟩

/-- C2 (amended): for every tool call with `includeMetadata` unset or false,
against a collaborator returning the entry list `results`, the outcome is a
single text content block holding the pretty-printed JSON serialization of
exactly those entries (not the formatted lines of `formatShoppingResults`,
which the handler never invokes), and the block contains each entry's
title, seller, price and product link as quoted JSON fields. -/
theorem c2_default_path_serialization (a : ToolArgs) (resp : SearchApiResponse)
    (results : List ShoppingResult)
    (hmeta : a.includeMetadata = none ∨ a.includeMetadata = some false)
    (hresp : resp.shopping_results = some results) :
    (googleShoppingToolHandler a (Except.ok resp)).1 =
      Except.ok [ContentBlock.text (jsonStringifyResults results)] ∧
    ∀ r ∈ results,
      containsStr (jsonStringifyResults results)
        ("\"title\": \"" ++ escapeJsonString r.title ++ "\"") ∧
      containsStr (jsonStringifyResults results)
        ("\"seller\": \"" ++ escapeJsonString r.seller ++ "\"") ∧
      containsStr (jsonStringifyResults results)
        ("\"price\": \"" ++ escapeJsonString r.price ++ "\"") ∧
      containsStr (jsonStringifyResults results)
        ("\"product_link\": \"" ++ escapeJsonString r.product_link ++ "\"") := by
  constructor
  · have hm : a.includeMetadata.getD false = false := by
      rcases hmeta with h | h <;> simp [h]
    unfold googleShoppingToolHandler searchProducts googleShoppingSSearch
    simp [hm, Except.map, hresp]
  · intro r hr
    exact jsonStringifyResults_contains hr

/-- Witness for C2 at the concrete stub call. -/
theorem c2_witness :
    (googleShoppingToolHandler stubArgs (Except.ok stubResponse)).1 =
      Except.ok [ContentBlock.text (jsonStringifyResults [stubEntry])] ∧
    containsStr (jsonStringifyResults [stubEntry])
      ("\"title\": \"" ++ escapeJsonString "Laptop" ++ "\"") :=
  ⟨(c2_default_path_serialization stubArgs stubResponse [stubEntry]
      (Or.inl rfl) rfl).1,
   ((c2_default_path_serialization stubArgs stubResponse [stubEntry]
      (Or.inl rfl) rfl).2 stubEntry (by simp)).1⟩

end McpSearchApi
